import Mathlib

set_option maxRecDepth 10000

/-
  Shallow embedding of the slot-machine event-coordination and broadcast
  server (src/slotmachine/backend/main.py): round state, the shared input
  handler `handle_input`, the websocket dispatch loop, the broadcast hub,
  and the generation-pipeline glue (`generate_prompt_and_name`,
  `generate_image`).  External network calls (OpenAI chat / image API,
  HTTP download) are modelled as oracles passed in as parameters; file
  writes (the manifest append, the saved image) are modelled as explicit
  outputs.
-/

namespace SlotMachine

/-- Reel 0 catalog (animals), REELS[0] in main.py. -/
def REELS0 : List String :=
  ["Cat","Dog","Shark","Octopus","Dragon","Snake","Elephant","Lion","Bear","Horse",
   "Rabbit","Wolf","Tiger","Fox","Dolphin","Eagle","Owl","Frog","Penguin","Giraffe",
   "Zebra","Kangaroo","Crocodile","Parrot","Bat","Whale","Ant","Bee","Crab","Lizard"]

/-- Reel 1 catalog (fruits), REELS[1] in main.py. -/
def REELS1 : List String :=
  ["Apple","Banana","Orange","Watermelon","Grapes","Pineapple","Mango","Lemon","Strawberry","Blueberry",
   "Raspberry","Peach","Pear","Kiwi","Cherry","Pomegranate","Coconut","Fig","Plum","Apricot",
   "Papaya","Melon","Lychee","Passionfruit","Guava","Dragonfruit","Blackcurrant","Mulberry","Cranberry","Gooseberry"]

/-- Reel 2 catalog (objects), REELS[2] in main.py. -/
def REELS2 : List String :=
  ["Sword","Shield","Lantern","Chair","Table","Clock","Mirror","Crown","Helmet","Book",
   "Scroll","Pen","Cup","Bottle","Key","Lock","Dice","Card","Bell","Violin",
   "Drum","Brush","Palette","Hammer","Anvil","Telescope","Compass","Anchor","Rope","Backpack"]

/-- The REELS dict of main.py, indexed by reel id (keys 0..2; any other
key would be a KeyError in Python but is unreachable behind the range
check in `handle_input`). -/
def REELS : Nat → List String
  | 0 => REELS0
  | 1 => REELS1
  | 2 => REELS2
  | _ => []

/-- The module-level `state` dict of main.py: `spinning` and `result`
are Python lists of length 3, `session_seed` a nonnegative int. -/
structure SMState where
  spinning : List Bool
  result : List (Option String)
  session_seed : Nat
deriving DecidableEq

/-- The module-level initial value of `state` (main.py lines 64-68). -/
def initState : SMState :=
  { spinning := [true, true, true], result := [none, none, none], session_seed := 0 }

/-- The reinitialization performed at the top of `ws_endpoint` when a new
viewer connection is established (main.py lines 219-221); `tms` models
`int(time.time() * 1000)`. -/
def connectInit (tms : Nat) : SMState :=
  { spinning := [true, true, true], result := [none, none, none],
    session_seed := tms % 1000000 }

/-- The broadcast payloads emitted by `handle_input` (wire `type` fields
"reel_stopped", "all_stopped", "image_ready", "error", "reset_ok"). -/
inductive Broadcast where
  | reelStopped (reel : Nat) (symbol : String)
  | allStopped (result : List (Option String))
  | imageReady (url : String) (prompt : String) (italianName : String)
  | errorMsg (message : String)
  | resetOk
deriving DecidableEq

/-- One line appended to frontend/generated/manifest.jsonl (the
timestamp field is omitted: no claim depends on it). -/
structure LogEntry where
  url : String
  italian_name : String
  prompt : String
deriving DecidableEq

/-- A record of one external-generation call made by `handle_input`,
with the arguments it was invoked with. -/
inductive GenCall where
  | textCall (nameArg : String) (animalArg : Option String) (objectArg : Option String)
  | imageCall (prompt : String)
deriving DecidableEq

/-- Oracle for the two external generation steps as invoked from
`handle_input`: `textGen` models `generate_prompt_and_name` (returning
(italian_name, prompt) or raising) and `imageGen` models
`generate_image` (returning the saved file's basename or raising). -/
structure GenOracle where
  textGen : String → Option String → Option String → Except String (String × String)
  imageGen : String → Except String String

/-- Python `a or b` on an optional string: `None` and the empty string
are falsy. -/
def pyOr (a b : Option String) : Option String :=
  match a with
  | none => b
  | some s => if s = "" then b else some s

/-- The body of the try-block in `handle_input` (main.py lines 185-201):
unpack `state["result"]`, call `generate_prompt_and_name("Player",
animal, fruit or obj)`, then `generate_image`, build the url from the
basename, append one manifest entry, and produce the final broadcast.
Any exception is caught by the surrounding except-clause, which
broadcasts an error message instead (line 202-203).  Returns (final
broadcast, manifest appends, calls made). -/
def runPipeline (g : GenOracle) (res : List (Option String)) :
    Broadcast × List LogEntry × List GenCall :=
  match res with
  | [animal, fruit, obj] =>
    let arg3 := pyOr fruit obj
    match g.textGen "Player" animal arg3 with
    | .error e => (.errorMsg e, [], [.textCall "Player" animal arg3])
    | .ok (italianName, dallePrompt) =>
      match g.imageGen dallePrompt with
      | .error e => (.errorMsg e, [], [.textCall "Player" animal arg3, .imageCall dallePrompt])
      | .ok fname =>
        let url := "/static/generated/" ++ fname
        (.imageReady url dallePrompt italianName,
         [{ url := url, italian_name := italianName, prompt := dallePrompt }],
         [.textCall "Player" animal arg3, .imageCall dallePrompt])
  | _ => (.errorMsg "not enough values to unpack", [], [])

/-- The deterministic draw of main.py lines 176-178:
`items[(session_seed XOR idx*7919 XOR (time_ns() AND 0xFFFFFFFF)) % len(items)]`.
(`state.get("session_seed", 0) or 0` equals `session_seed` since the
seed is a nonnegative int and `0 or 0` is `0`.) -/
def drawSymbol (s : SMState) (idx : Nat) (tns : Nat) : String :=
  let items := REELS idx
  let seed := s.session_seed ^^^ (idx * 7919) ^^^ (Nat.land tns 4294967295)
  items.getD (seed % items.length) ""

/-- Lines 171-178 of main.py: use the client-supplied symbol verbatim
when it is a member of the reel's catalog (`sym in items`); otherwise
(absent, non-member) draw deterministically. -/
def chooseSymbol (s : SMState) (idx : Nat) (tns : Nat) (symOpt : Option String) : String :=
  match symOpt with
  | some sym => if sym ∈ REELS idx then sym else drawSymbol s idx tns
  | none => drawSymbol s idx tns

/-- The `data["reel"]` field as seen by `int(data["reel"])`: the key may
be absent (KeyError), present but not int-convertible (ValueError), or
convert to an integer. -/
inductive ReelField where
  | absent
  | notAnInt
  | intVal (i : Int)
deriving DecidableEq

/-- A successfully json-decoded client message object, normalized:
`mtype` is `data.get("type")` when it is a string (a missing or
non-string type field compares unequal to both "stop_reel" and "reset",
exactly like `none` here); `symbol` is `data.get("symbol")` when it is a
string (a missing or non-string symbol is never a catalog member, like
`none` here). -/
structure MsgData where
  mtype : Option String
  reel : ReelField
  symbol : Option String
deriving DecidableEq

/-- A well-formed stop_reel message. -/
def stopMsg (i : Int) (sym : Option String) : MsgData :=
  { mtype := some "stop_reel", reel := .intVal i, symbol := sym }

/-- A reset message. -/
def resetMsg : MsgData :=
  { mtype := some "reset", reel := .absent, symbol := none }

/-- `handle_input` (main.py lines 165-208), with the external generation
steps supplied by the oracle `g` and `time.time_ns()` supplied as `tns`.
Returns the new state, the broadcasts emitted in order, the manifest
entries appended, and the generation calls made — or an error when the
Python code would raise out of `handle_input` (which happens only at
`int(data["reel"])`, before any state mutation). -/
def handle_input (g : GenOracle) (tns : Nat) (d : MsgData) (s : SMState) :
    Except String (SMState × List Broadcast × List LogEntry × List GenCall) :=
  if d.mtype = some "stop_reel" then
    match d.reel with
    | .absent => .error "KeyError: reel"
    | .notAnInt => .error "ValueError: invalid literal for int()"
    | .intVal idx =>
      if 0 ≤ idx ∧ idx < 3 ∧ s.spinning.getD idx.toNat false = true then
        let i := idx.toNat
        let symbol := chooseSymbol s i tns d.symbol
        let s1 : SMState :=
          { s with spinning := s.spinning.set i false,
                   result := s.result.set i (some symbol) }
        if s1.spinning.all (fun b => !b) then
          let po := runPipeline g s1.result
          .ok (s1, [.reelStopped i symbol, .allStopped s1.result, po.1], po.2.1, po.2.2)
        else
          .ok (s1, [.reelStopped i symbol], [], [])
      else
        .ok (s, [], [], [])
  else if d.mtype = some "reset" then
    .ok ({ spinning := [true, true, true], result := [none, none, none], session_seed := 0 },
         [.resetOk], [], [])
  else
    .ok (s, [], [], [])

/-- One iteration of the receive loop in `ws_endpoint` (main.py lines
226-231): `none` models a message on which `json.loads(msg)` raises
(line 230 is outside any try/except for that exception, so it
propagates); `some d` models a successfully decoded object handed to
`handle_input`. -/
def processMessage (g : GenOracle) (tns : Nat) (m : Option MsgData) (s : SMState) :
    Except String (SMState × List Broadcast × List LogEntry × List GenCall) :=
  match m with
  | none => .error "json.loads: Expecting value"
  | some d => handle_input g tns d s

/-- The whole receive loop of one viewer connection over a list of
incoming messages: an exception escaping the loop body ends the loop,
and the finally-block then discards the socket from `clients` — the
boolean records whether the connection is still open after the list.
(A `WebSocketDisconnect` from `receive_text` itself is a clean break
and is not modelled here.) -/
def dispatchLoop (g : GenOracle) : List (Nat × Option MsgData) → SMState → SMState × Bool
  | [], s => (s, true)
  | (tns, m) :: rest, s =>
    match processMessage g tns m s with
    | .error _ => (s, false)
    | .ok (s1, _, _, _) => dispatchLoop g rest s1

/-- Sequential application of a list of decoded events by the
dispatcher, accumulating the broadcasts in emission order (an error
stops the loop, as in `ws_endpoint`). -/
def runEvents (g : GenOracle) : List (Nat × MsgData) → SMState → SMState × List Broadcast
  | [], s => (s, [])
  | (tns, d) :: rest, s =>
    match handle_input g tns d s with
    | .error _ => (s, [])
    | .ok (s1, out, _, _) =>
      let r := runEvents g rest s1
      (r.1, out ++ r.2)

/-- Sequential application of stop_reel events only (each given as
(time_ns, reel index, optional explicit symbol)). -/
def runStops (g : GenOracle) : List (Nat × Int × Option String) → SMState → SMState × List Broadcast
  | [], s => (s, [])
  | (tns, idx, sym) :: rest, s =>
    match handle_input g tns (stopMsg idx sym) s with
    | .error _ => (s, [])
    | .ok (s1, out, _, _) =>
      let r := runStops g rest s1
      (r.1, out ++ r.2)

/-- `all(not s for s in state["spinning"])` (main.py line 183). -/
def allStopped (s : SMState) : Bool := s.spinning.all (fun b => !b)

/-- Number of all_stopped broadcasts in an output trace. -/
def countAllStopped (out : List Broadcast) : Nat :=
  out.countP (fun b => match b with | .allStopped _ => true | _ => false)

/-- The retry loop of `generate_prompt_and_name` (main.py lines
116-140): `api attempt` models the whole try-block body of the attempt
(chat call, JSON extraction, field access) — ok with (italian_name,
prompt) or the exception message.  The second component records the
`time.sleep(min(2 ** attempt, 10))` durations in order.  `fuel` is
`retries - attempt + 1`; the fuel-0 base case is the unreachable
`raise RuntimeError(f"Unexpected: ...")` after the loop. -/
def genAttempts (api : Nat → Except String (String × String)) :
    Nat → Nat → Except String (String × String) × List Nat
  | _, 0 => (.error "Unexpected", [])
  | attempt, fuel + 1 =>
    match api attempt with
    | .ok r => (.ok r, [])
    | .error e =>
      if fuel = 0 then
        (.error ("Prompt generation failed: " ++ e), [])
      else
        let r := genAttempts api (attempt + 1) fuel
        (r.1, min (2 ^ attempt) 10 :: r.2)

/-- `generate_prompt_and_name` (main.py lines 113-140) with its attempt
bodies abstracted into `api`; the source's default is `retries = 3`. -/
def generate_prompt_and_name (api : Nat → Except String (String × String)) (retries : Nat) :
    Except String (String × String) × List Nat :=
  genAttempts api 1 retries

/-- Result of one call to the image API plus the download: `url` is
`resp.data[0].url` with Python falsiness folded in (`none` models an
absent or empty url), `downloadOk` is whether `requests.get(url).
raise_for_status()` succeeded. -/
structure ImageApiResult where
  url : Option String
  downloadOk : Bool
deriving DecidableEq

/-- One attempt of the image-generation step: call the API, check the
url, download, save under the timestamp-derived basename `fname`. -/
def imageAttempt (apiCall : Nat → Except String ImageApiResult) (fname : String) (n : Nat) :
    Except String String :=
  match apiCall n with
  | .error e => .error e
  | .ok r =>
    match r.url with
    | none => .error "No image URL from Images API."
    | some _ => if r.downloadOk then .ok fname else .error "HTTPError"

/-- `generate_image` (main.py lines 142-160): the body is straight-line
code with no loop — exactly one attempt (attempt number 1) is made, and
any failure propagates immediately. -/
def generate_image (apiCall : Nat → Except String ImageApiResult) (fname : String) :
    Except String String :=
  imageAttempt apiCall fname 1

/-- Modelled from the spec: a generic bounded-retry loop, used only to
state what §4.4's "calls the external image-generation step (same retry
policy)" would do; the code under src/ has no such loop for the image
step. -/
def retryLoopSpec {α : Type} (api : Nat → Except String α) : Nat → Nat → Except String α
  | _, 0 => .error "retries exhausted"
  | attempt, fuel + 1 =>
    match api attempt with
    | .ok r => .ok r
    | .error e => if fuel = 0 then .error e else retryLoopSpec api (attempt + 1) fuel

/-- Modelled from the spec: "`reset()` ... regenerates `sessionSeed`
from the current time" (§4.4 of the spec); the only time-derived seed
formula in the code is the one used at viewer-connect
(`int(time.time() * 1000) % 1_000_000`). -/
def resetSpec (tms : Nat) : SMState :=
  { spinning := [true, true, true], result := [none, none, none],
    session_seed := tms % 1000000 }

/-- The body of `broadcast` (main.py lines 99-108) over an abstract
registry: iterate over the registered connections in order, attempt the
send on each (`sendOk` tells which sends raise), collect the failed
ones in `dead`, then discard every dead connection from the registry.
Returns (connections the payload was delivered to, new registry). -/
def broadcastRun (sendOk : Nat → Bool) (clients : List Nat) : List Nat × List Nat :=
  let dl := clients.foldl
    (fun (acc : List Nat × List Nat) ws =>
      if sendOk ws then (acc.1 ++ [ws], acc.2) else (acc.1, acc.2 ++ [ws]))
    ([], [])
  (dl.1, clients.filter (fun ws => !(dl.2.contains ws)))

/-- An oracle whose generation steps always succeed, returning
italian_name "Name", prompt "Prompt" and image basename "img.png". -/
def okOracle : GenOracle :=
  { textGen := fun _ _ _ => .ok ("Name", "Prompt"),
    imageGen := fun _ => .ok "img.png" }

/-- An oracle whose text-generation step always raises. -/
def failOracle : GenOracle :=
  { textGen := fun _ _ _ => .error "boom",
    imageGen := fun _ => .ok "img.png" }

/-- A round state with reels 0 and 1 already stopped on Cat and Apple
and reel 2 still spinning. -/
def twoStopped : SMState :=
  { spinning := [false, false, true],
    result := [some "Cat", some "Apple", none],
    session_seed := 0 }

/-- An image API that fails transiently on the first attempt and would
succeed on any later one. -/
def transientImageApi : Nat → Except String ImageApiResult :=
  fun n => if n = 1 then .error "RateLimitError" else .ok { url := some "u", downloadOk := true }

/-- The state produced by stopping reel `i` on symbol `sym` (main.py
lines 179-180). -/
def stoppedState (s : SMState) (i : Nat) (sym : String) : SMState :=
  { s with spinning := s.spinning.set i false, result := s.result.set i (some sym) }

/-- The Round State invariant of §3 of the spec: both arrays have three
slots and, for every reel index, the result slot is set exactly when the
reel is no longer spinning. -/
def SMInv (s : SMState) : Prop :=
  s.spinning.length = 3 ∧ s.result.length = 3 ∧
    ∀ i : Fin 3, (s.result.getD i.val none).isSome = !(s.spinning.getD i.val true)

-- ---------------------------------------------------------------------
-- Helper lemmas
-- ---------------------------------------------------------------------

/-- Unfolding of `handle_input` on a well-formed stop_reel message. -/
lemma handle_input_stop (g : GenOracle) (tns : Nat) (idx : Int) (sym : Option String)
    (s : SMState) :
    handle_input g tns (stopMsg idx sym) s =
      if 0 ≤ idx ∧ idx < 3 ∧ s.spinning.getD idx.toNat false = true then
        if (s.spinning.set idx.toNat false).all (fun b => !b) then
          Except.ok (stoppedState s idx.toNat (chooseSymbol s idx.toNat tns sym),
            [Broadcast.reelStopped idx.toNat (chooseSymbol s idx.toNat tns sym),
             Broadcast.allStopped (s.result.set idx.toNat (some (chooseSymbol s idx.toNat tns sym))),
             (runPipeline g (s.result.set idx.toNat (some (chooseSymbol s idx.toNat tns sym)))).1],
            (runPipeline g (s.result.set idx.toNat (some (chooseSymbol s idx.toNat tns sym)))).2.1,
            (runPipeline g (s.result.set idx.toNat (some (chooseSymbol s idx.toNat tns sym)))).2.2)
        else
          Except.ok (stoppedState s idx.toNat (chooseSymbol s idx.toNat tns sym),
            [Broadcast.reelStopped idx.toNat (chooseSymbol s idx.toNat tns sym)], [], [])
      else Except.ok (s, [], [], []) := rfl

/-- Unfolding of `handle_input` on a reset message. -/
lemma handle_input_reset (g : GenOracle) (tns : Nat) (s : SMState) :
    handle_input g tns resetMsg s =
      .ok ({ spinning := [true, true, true], result := [none, none, none], session_seed := 0 },
           [.resetOk], [], []) := rfl

/-- A stop event whose guard fails (out-of-range index or reel already
stopped) is a no-op: unchanged state, no broadcast, no log entry. -/
lemma stop_noop (g : GenOracle) (tns : Nat) (idx : Int) (sym : Option String) (s : SMState)
    (h : ¬(0 ≤ idx ∧ idx < 3 ∧ s.spinning.getD idx.toNat false = true)) :
    handle_input g tns (stopMsg idx sym) s = .ok (s, [], [], []) := by
  rw [handle_input_stop, if_neg h]

/-- In an all-stopped state every spinning slot reads false. -/
lemma getD_false_of_allStopped {s : SMState} (h : allStopped s = true) (i : Nat) :
    s.spinning.getD i false = false := by
  unfold allStopped at h
  rcases Nat.lt_or_ge i s.spinning.length with hlt | hge
  · rw [List.getD_eq_getElem _ _ hlt]
    simpa using List.all_eq_true.mp h _ (List.getElem_mem hlt)
  · exact List.getD_eq_default _ _ hge

/-- Once the round is complete, any stop event is a no-op. -/
lemma stop_noop_of_allStopped (g : GenOracle) (tns : Nat) (idx : Int) (sym : Option String)
    (s : SMState) (h : allStopped s = true) :
    handle_input g tns (stopMsg idx sym) s = .ok (s, [], [], []) := by
  refine stop_noop g tns idx sym s ?_
  rintro ⟨-, -, hsp⟩
  rw [getD_false_of_allStopped h idx.toNat] at hsp
  exact Bool.false_ne_true hsp

/-- Once the round is complete, any sequence of stop events changes no
state and emits no broadcast. -/
lemma runStops_noop_of_allStopped (g : GenOracle) (evs : List (Nat × Int × Option String))
    (s : SMState) (h : allStopped s = true) :
    runStops g evs s = (s, []) := by
  induction evs with
  | nil => rfl
  | cons ev rest ih =>
    obtain ⟨tns, idx, sym⟩ := ev
    simp only [runStops, stop_noop_of_allStopped g tns idx sym s h, ih, List.nil_append]

/-- The final broadcast of the generation pipeline is image_ready or an
error message, never all_stopped. -/
lemma runPipeline_fst (g : GenOracle) (r : List (Option String)) :
    (∃ e, (runPipeline g r).1 = .errorMsg e) ∨
      (∃ u p n, (runPipeline g r).1 = .imageReady u p n) := by
  unfold runPipeline
  rcases r with - | ⟨a, - | ⟨f, - | ⟨o, - | ⟨x, rest⟩⟩⟩⟩
  · exact .inl ⟨_, rfl⟩
  · exact .inl ⟨_, rfl⟩
  · exact .inl ⟨_, rfl⟩
  · cases htg : g.textGen "Player" a (pyOr f o) with
    | error e => exact .inl ⟨e, by simp [htg]⟩
    | ok v =>
      obtain ⟨nm, pr⟩ := v
      cases hig : g.imageGen pr with
      | error e => exact .inl ⟨e, by simp [htg, hig]⟩
      | ok fn => exact .inr ⟨"/static/generated/" ++ fn, pr, nm, by simp [htg, hig]⟩
  · exact .inl ⟨_, rfl⟩

/-- When the pipeline fails, no manifest entry is produced. -/
lemma runPipeline_entries_nil (g : GenOracle) (r : List (Option String)) (e : String)
    (h : (runPipeline g r).1 = .errorMsg e) : (runPipeline g r).2.1 = [] := by
  unfold runPipeline at h ⊢
  rcases r with - | ⟨a, - | ⟨f, - | ⟨o, - | ⟨x, rest⟩⟩⟩⟩ <;> try rfl
  cases htg : g.textGen "Player" a (pyOr f o) with
  | error e2 => simp [htg]
  | ok v =>
    obtain ⟨nm, pr⟩ := v
    cases hig : g.imageGen pr with
    | error e2 => simp [htg, hig]
    | ok fn => simp only [htg, hig] at h; simp at h

/-- `countAllStopped` distributes over append. -/
lemma countAllStopped_append (l1 l2 : List Broadcast) :
    countAllStopped (l1 ++ l2) = countAllStopped l1 + countAllStopped l2 :=
  List.countP_append _ _ _

/-- The pipeline broadcast counts zero all_stopped notifications. -/
lemma countAllStopped_pipeline (g : GenOracle) (r : List (Option String)) :
    countAllStopped [(runPipeline g r).1] = 0 := by
  rcases runPipeline_fst g r with ⟨e, h⟩ | ⟨u, p, n, h⟩ <;>
    simp [countAllStopped, h]

/-- Characterization of one stop event: it never raises, preserves the
three-slot shape, emits one all_stopped broadcast exactly when it takes the
state from not-all-stopped to all-stopped, and is a strict no-op on an
already completed round. -/
lemma stop_step (g : GenOracle) (tns : Nat) (idx : Int) (sym : Option String) (s : SMState)
    (hlen : s.spinning.length = 3) :
    ∃ s1 out le gc,
      handle_input g tns (stopMsg idx sym) s = .ok (s1, out, le, gc) ∧
      s1.spinning.length = 3 ∧
      countAllStopped out = (if allStopped s = false ∧ allStopped s1 = true then 1 else 0) ∧
      (allStopped s = true → s1 = s ∧ out = []) := by
  by_cases hg : 0 ≤ idx ∧ idx < 3 ∧ s.spinning.getD idx.toNat false = true
  · obtain ⟨h0, h3, hsp⟩ := hg
    have hns : allStopped s = false := by
      cases h : allStopped s with
      | false => rfl
      | true =>
        rw [getD_false_of_allStopped h idx.toNat] at hsp
        exact absurd hsp (by simp)
    rw [handle_input_stop, if_pos ⟨h0, h3, hsp⟩]
    by_cases hc : ((s.spinning.set idx.toNat false).all fun b => !b) = true
    · rw [if_pos hc]
      have h1 : allStopped (stoppedState s idx.toNat (chooseSymbol s idx.toNat tns sym)) = true := by
        simpa [allStopped, stoppedState] using hc
      refine ⟨_, _, _, _, rfl, ?_, ?_, ?_⟩
      · simpa [stoppedState] using hlen
      · have hz := countAllStopped_pipeline g
          (s.result.set idx.toNat (some (chooseSymbol s idx.toNat tns sym)))
        simp [countAllStopped, List.countP_cons] at hz ⊢
        simp [hns, h1, hz]
      · intro hT; rw [hT] at hns; exact absurd hns (by simp)
    · rw [if_neg hc]
      have h1 : allStopped (stoppedState s idx.toNat (chooseSymbol s idx.toNat tns sym)) = false :=
        Bool.eq_false_iff.mpr hc
      refine ⟨_, _, _, _, rfl, ?_, ?_, ?_⟩
      · simpa [stoppedState] using hlen
      · simp [countAllStopped, List.countP_cons, hns, h1]
      · intro hT; rw [hT] at hns; exact absurd hns (by simp)
  · refine ⟨s, [], [], [], stop_noop g tns idx sym s hg, hlen, ?_, fun _ => ⟨rfl, rfl⟩⟩
    cases h : allStopped s <;> simp [countAllStopped, h]

/-- Over any list of stop events, starting from an incomplete round,
the number of all_stopped broadcasts is one exactly when the final state
is complete, zero otherwise. -/
lemma runStops_count (g : GenOracle) (evs : List (Nat × Int × Option String)) (s : SMState)
    (hlen : s.spinning.length = 3) :
    countAllStopped (runStops g evs s).2 =
      (if allStopped s = false ∧ allStopped (runStops g evs s).1 = true then 1 else 0) := by
  induction evs generalizing s with
  | nil =>
    cases h : allStopped s <;> simp [runStops, countAllStopped, h]
  | cons ev rest ih =>
    obtain ⟨tns, idx, sym⟩ := ev
    obtain ⟨s1, out, le, gc, heq, hlen1, hcnt, hback⟩ := stop_step g tns idx sym s hlen
    simp only [runStops, heq]
    rw [countAllStopped_append]
    cases hs : allStopped s with
    | true =>
      obtain ⟨rfl, rfl⟩ := hback hs
      rw [ih s1 hlen1]
      simp [hs, hcnt]
    | false =>
      cases h1 : allStopped s1 with
      | true =>
        rw [runStops_noop_of_allStopped g rest s1 h1]
        rw [hs, h1] at hcnt
        simp only [countAllStopped] at hcnt ⊢
        simp at hcnt
        simp [hcnt, h1]
      | false =>
        rw [ih s1 hlen1]
        rw [hs, h1] at hcnt
        simp at hcnt
        simp [hcnt, h1]

/-- Closed form of the delivery loop of `broadcast`. -/
lemma broadcast_fold (sendOk : Nat → Bool) (l : List Nat) (d dd : List Nat) :
    l.foldl (fun (acc : List Nat × List Nat) ws =>
        if sendOk ws then (acc.1 ++ [ws], acc.2) else (acc.1, acc.2 ++ [ws])) (d, dd)
      = (d ++ l.filter sendOk, dd ++ l.filter (fun ws => !(sendOk ws))) := by
  induction l generalizing d dd with
  | nil => simp
  | cons a l ih =>
    cases h : sendOk a with
    | true => simp [List.foldl_cons, h, ih, List.filter_cons]
    | false => simp [List.foldl_cons, h, ih, List.filter_cons]

/-- Closed form of `broadcastRun`: delivery reaches exactly the
connections whose send succeeds, and the new registry drops exactly the
dead ones. -/
lemma broadcastRun_eq (sendOk : Nat → Bool) (clients : List Nat) :
    broadcastRun sendOk clients =
      (clients.filter sendOk,
       clients.filter
         (fun ws => !((clients.filter fun w => !(sendOk w)).contains ws))) := by
  simp only [broadcastRun, broadcast_fold, List.nil_append]

/-- The invariant holds for an updated round state after stopping reel
`i` when it held before. -/
lemma SMInv_stoppedState {s : SMState} (hInv : SMInv s) (i : Nat) (hi : i < 3) (sym : String) :
    SMInv (stoppedState s i sym) := by
  obtain ⟨sp, res, seed⟩ := s
  obtain ⟨hls, hlr, hiff⟩ := hInv
  simp only at hls hlr
  obtain ⟨a, b, c, rfl⟩ := List.length_eq_three.mp hls
  obtain ⟨x, y, z, rfl⟩ := List.length_eq_three.mp hlr
  have h0 := hiff 0
  have h1 := hiff 1
  have h2 := hiff 2
  simp [List.getD] at h0 h1 h2
  have hcases : i = 0 ∨ i = 1 ∨ i = 2 := by omega
  rcases hcases with rfl | rfl | rfl <;>
    exact ⟨rfl, rfl, by intro j; fin_cases j <;> simp [stoppedState, List.getD, h0, h1, h2]⟩

/-- A stop_reel message with an integer reel field behaves exactly like
the corresponding `stopMsg` (only `mtype`, `reel` and `symbol` are
inspected). -/
lemma handle_input_as_stop (g : GenOracle) (tns : Nat) (d : MsgData) (s : SMState)
    (hty : d.mtype = some "stop_reel") (idx : Int) (hrl : d.reel = .intVal idx) :
    handle_input g tns d s = handle_input g tns (stopMsg idx d.symbol) s := by
  unfold handle_input stopMsg
  rw [hty, hrl]

/-- A stop_reel message without a reel field raises (KeyError), exactly
like `int(data["reel"])`. -/
lemma handle_input_reel_absent (g : GenOracle) (tns : Nat) (d : MsgData) (s : SMState)
    (hty : d.mtype = some "stop_reel") (hrl : d.reel = .absent) :
    handle_input g tns d s = .error "KeyError: reel" := by
  unfold handle_input
  rw [hty, hrl]
  rw [if_pos rfl]

/-- A stop_reel message whose reel field is not int-convertible raises
(ValueError). -/
lemma handle_input_reel_notAnInt (g : GenOracle) (tns : Nat) (d : MsgData) (s : SMState)
    (hty : d.mtype = some "stop_reel") (hrl : d.reel = .notAnInt) :
    handle_input g tns d s = .error "ValueError: invalid literal for int()" := by
  unfold handle_input
  rw [hty, hrl]
  rw [if_pos rfl]

/-- A message of any kind other than stop_reel and reset falls through
both branches: dropped with no state change and no broadcast. -/
lemma handle_input_other (g : GenOracle) (tns : Nat) (d : MsgData) (s : SMState)
    (hty : d.mtype ≠ some "stop_reel") (hrs : d.mtype ≠ some "reset") :
    handle_input g tns d s = .ok (s, [], [], []) := by
  unfold handle_input
  rw [if_neg hty, if_neg hrs]

/-- Any message whose type field is "reset" resets the state. -/
lemma handle_input_reset_any (g : GenOracle) (tns : Nat) (d : MsgData) (s : SMState)
    (hty : d.mtype ≠ some "stop_reel") (hrs : d.mtype = some "reset") :
    handle_input g tns d s =
      .ok ({ spinning := [true, true, true], result := [none, none, none], session_seed := 0 },
           [.resetOk], [], []) := by
  unfold handle_input
  rw [if_neg hty, hrs]
  rw [if_pos rfl]

/-- `handle_input` preserves the Round State invariant. -/
lemma handle_input_SMInv (g : GenOracle) (tns : Nat) (d : MsgData) (s : SMState)
    (s1 : SMState) (out : List Broadcast) (le : List LogEntry) (gc : List GenCall)
    (hInv : SMInv s) (heq : handle_input g tns d s = .ok (s1, out, le, gc)) :
    SMInv s1 := by
  by_cases hty : d.mtype = some "stop_reel"
  · cases hrl : d.reel with
    | absent =>
      rw [handle_input_reel_absent g tns d s hty hrl] at heq
      exact absurd heq (by simp)
    | notAnInt =>
      rw [handle_input_reel_notAnInt g tns d s hty hrl] at heq
      exact absurd heq (by simp)
    | intVal idx =>
      rw [handle_input_as_stop g tns d s hty idx hrl, handle_input_stop] at heq
      by_cases hg : 0 ≤ idx ∧ idx < 3 ∧ s.spinning.getD idx.toNat false = true
      · rw [if_pos hg] at heq
        have hidx : idx.toNat < 3 := by omega
        have hstop := SMInv_stoppedState hInv idx.toNat hidx
          (chooseSymbol s idx.toNat tns d.symbol)
        split at heq <;>
          (simp only [Except.ok.injEq, Prod.mk.injEq] at heq
           rw [← heq.1]
           exact hstop)
      · rw [if_neg hg] at heq
        simp only [Except.ok.injEq, Prod.mk.injEq] at heq
        rw [← heq.1]
        exact hInv
  · by_cases hrs : d.mtype = some "reset"
    · rw [handle_input_reset_any g tns d s hty hrs] at heq
      simp only [Except.ok.injEq, Prod.mk.injEq] at heq
      rw [← heq.1]
      exact ⟨rfl, rfl, by intro j; fin_cases j <;> simp [List.getD]⟩
    · rw [handle_input_other g tns d s hty hrs] at heq
      simp only [Except.ok.injEq, Prod.mk.injEq] at heq
      rw [← heq.1]
      exact hInv

/-- The spinning array after a stop that leaves no other reel spinning
is all-false. -/
lemma set_false_all (s : SMState) (idx : Int) (hsl : s.spinning.length = 3)
    (h0 : 0 ≤ idx) (h3 : idx < 3)
    (hoth : ∀ j : Fin 3, j.val ≠ idx.toNat → s.spinning.getD j.val false = false) :
    s.spinning.set idx.toNat false = [false, false, false] := by
  obtain ⟨sp, res, seed⟩ := s
  simp only at hsl hoth ⊢
  obtain ⟨a, b, c, rfl⟩ := List.length_eq_three.mp hsl
  have g0 := hoth ⟨0, by omega⟩
  have g1 := hoth ⟨1, by omega⟩
  have g2 := hoth ⟨2, by omega⟩
  simp [List.getD] at g0 g1 g2
  have hcases : idx.toNat = 0 ∨ idx.toNat = 1 ∨ idx.toNat = 2 := by omega
  rcases hcases with h | h | h <;> rw [h]
  · rw [g1 (by omega), g2 (by omega)]; rfl
  · rw [g0 (by omega), g2 (by omega)]; rfl
  · rw [g0 (by omega), g1 (by omega)]; rfl

/-- Every deterministic draw lands inside the reel's catalog. -/
lemma drawSymbol_mem (s : SMState) (i : Nat) (hi : i < 3) (tns : Nat) :
    drawSymbol s i tns ∈ REELS i := by
  unfold drawSymbol
  have h30 : (REELS i).length = 30 := by
    interval_cases i <;> rfl
  have hm : (s.session_seed ^^^ (i * 7919) ^^^ (Nat.land tns 4294967295)) % (REELS i).length
      < (REELS i).length := by
    rw [h30]; exact Nat.mod_lt _ (by norm_num)
  rw [List.getD_eq_getElem _ _ hm]
  exact List.getElem_mem hm

/-- Every chosen symbol lands inside the reel's catalog. -/
lemma chooseSymbol_mem (s : SMState) (i : Nat) (hi : i < 3) (tns : Nat)
    (symOpt : Option String) :
    chooseSymbol s i tns symOpt ∈ REELS i := by
  unfold chooseSymbol
  cases symOpt with
  | none => exact drawSymbol_mem s i hi tns
  | some x =>
    by_cases hx : x ∈ REELS i
    · simp [hx]
    · simpa [hx] using drawSymbol_mem s i hi tns

-- ---------------------------------------------------------------------
-- Claim theorems
-- ---------------------------------------------------------------------

/-- C1 (code_bug evaluation): completing the round [Cat, Apple, Sword]
does NOT invoke the generation pipeline with the three resolved symbols.
The recorded calls show the text-generation step receives the literal
string "Player" as its first argument, then "Cat" and "Apple"; the
object symbol "Sword" never reaches the pipeline, and the appended log
entry carries only url/name/prompt derived from those wrong arguments. -/
theorem c1_pipeline_args_eval :
    handle_input okOracle 0 (stopMsg 2 (some "Sword")) twoStopped =
      .ok ({ spinning := [false, false, false],
             result := [some "Cat", some "Apple", some "Sword"],
             session_seed := 0 },
           [.reelStopped 2 "Sword",
            .allStopped [some "Cat", some "Apple", some "Sword"],
            .imageReady "/static/generated/img.png" "Prompt" "Name"],
           [{ url := "/static/generated/img.png", italian_name := "Name", prompt := "Prompt" }],
           [.textCall "Player" (some "Cat") (some "Apple"), .imageCall "Prompt"]) := rfl

/-- C2 (counterexample): a non-parseable client message makes
`json.loads` raise out of the dispatch loop body; the loop ends and the
finally-block closes that viewer's connection — so it is false that a
malformed message never raises and never costs the connection. -/
theorem c2_counterexample :
    (dispatchLoop okOracle [(0, none)] initState).2 = false ∧
    (processMessage okOracle 0 none initState).isOk = false := ⟨rfl, rfl⟩

/-- C2 (amended): messages of unknown kind and stop_reel messages with
an out-of-range integer reel index are dropped — no state change, no
broadcast, no exception, connection kept; but a non-parseable message
raises out of the dispatch loop (closing the connection), as does a
stop_reel message whose reel field is missing or not int-convertible. -/
theorem c2_malformed_messages :
    (∀ g tns d s, d.mtype ≠ some "stop_reel" → d.mtype ≠ some "reset" →
        handle_input g tns d s = .ok (s, [], [], [])) ∧
    (∀ g tns (i : Int) sym s, ¬(0 ≤ i ∧ i < 3) →
        handle_input g tns (stopMsg i sym) s = .ok (s, [], [], [])) ∧
    (∀ g tns s, processMessage g tns none s = .error "json.loads: Expecting value") ∧
    (∀ g tns sym s,
        handle_input g tns { mtype := some "stop_reel", reel := .absent, symbol := sym } s
          = .error "KeyError: reel") := by
  refine ⟨?_, ?_, ?_, ?_⟩
  · intro g tns d s hty hrs
    exact handle_input_other g tns d s hty hrs
  · intro g tns i sym s hrange
    refine stop_noop g tns i sym s ?_
    rintro ⟨ha, hb, -⟩
    exact hrange ⟨ha, hb⟩
  · intro g tns s
    rfl
  · intro g tns sym s
    exact handle_input_reel_absent g tns _ s rfl rfl

/-- C2 witness. -/
theorem c2_malformed_messages_witness :
    handle_input okOracle 0 { mtype := some "bogus", reel := .absent, symbol := none } initState
      = .ok (initState, [], [], []) ∧
    handle_input okOracle 0 (stopMsg 7 none) initState = .ok (initState, [], [], []) ∧
    processMessage okOracle 0 none initState = .error "json.loads: Expecting value" ∧
    handle_input okOracle 0 { mtype := some "stop_reel", reel := .absent, symbol := none } initState
      = .error "KeyError: reel" :=
  ⟨c2_malformed_messages.1 okOracle 0 _ initState (by decide) (by decide),
   c2_malformed_messages.2.1 okOracle 0 7 none initState (by omega),
   c2_malformed_messages.2.2.1 okOracle 0 initState,
   c2_malformed_messages.2.2.2 okOracle 0 none initState⟩

/-- C3 (counterexample): the generation outcome (image_ready) is
broadcast before the subsequent reset event is even looked at — the
dispatcher waits for the whole generation before accepting the next
event, because generation runs inline inside `handle_input`; there is no
background task. -/
theorem c3_counterexample :
    runEvents okOracle [(0, stopMsg 2 (some "Sword")), (1, resetMsg)] twoStopped =
      ({ spinning := [true, true, true], result := [none, none, none], session_seed := 0 },
       [.reelStopped 2 "Sword",
        .allStopped [some "Cat", some "Apple", some "Sword"],
        .imageReady "/static/generated/img.png" "Prompt" "Name",
        .resetOk]) := rfl

/-- C3 (amended): the generation pipeline runs synchronously inside the
processing of the completing stop event: its outcome broadcast is
emitted within that same event, and any subsequent stop/reset event is
applied only after the generation has completed. -/
theorem c3_generation_inline (g : GenOracle) (tns : Nat) (idx : Int) (symOpt : Option String)
    (s : SMState) (rest : List (Nat × MsgData))
    (hsl : s.spinning.length = 3) (h0 : 0 ≤ idx) (h3 : idx < 3)
    (hsp : s.spinning.getD idx.toNat false = true)
    (hoth : ∀ j : Fin 3, j.val ≠ idx.toNat → s.spinning.getD j.val false = false) :
    runEvents g ((tns, stopMsg idx symOpt) :: rest) s =
      ((runEvents g rest (stoppedState s idx.toNat (chooseSymbol s idx.toNat tns symOpt))).1,
       [Broadcast.reelStopped idx.toNat (chooseSymbol s idx.toNat tns symOpt),
        Broadcast.allStopped (s.result.set idx.toNat (some (chooseSymbol s idx.toNat tns symOpt))),
        (runPipeline g (s.result.set idx.toNat (some (chooseSymbol s idx.toNat tns symOpt)))).1]
         ++ (runEvents g rest (stoppedState s idx.toNat (chooseSymbol s idx.toNat tns symOpt))).2) := by
  have hall : ((s.spinning.set idx.toNat false).all fun b => !b) = true := by
    rw [set_false_all s idx hsl h0 h3 hoth]; rfl
  simp only [runEvents]
  rw [handle_input_stop, if_pos ⟨h0, h3, hsp⟩, if_pos hall]

/-- C3 witness. -/
theorem c3_generation_inline_witness :
    runEvents okOracle [(0, stopMsg 2 (some "Sword")), (1, resetMsg)] twoStopped =
      ((runEvents okOracle [(1, resetMsg)]
          (stoppedState twoStopped 2 (chooseSymbol twoStopped 2 0 (some "Sword")))).1,
       [Broadcast.reelStopped 2 (chooseSymbol twoStopped 2 0 (some "Sword")),
        Broadcast.allStopped
          (twoStopped.result.set 2 (some (chooseSymbol twoStopped 2 0 (some "Sword")))),
        (runPipeline okOracle
          (twoStopped.result.set 2 (some (chooseSymbol twoStopped 2 0 (some "Sword"))))).1]
         ++ (runEvents okOracle [(1, resetMsg)]
              (stoppedState twoStopped 2 (chooseSymbol twoStopped 2 0 (some "Sword")))).2) :=
  c3_generation_inline okOracle 0 2 (some "Sword") twoStopped [(1, resetMsg)]
    rfl (by decide) (by decide) (by decide) (by decide)

/-- C4 (counterexample): at current time 7 ms (where a time-derived
regeneration would give seed 7), a reset sets the session seed to the
constant 0 — reset does not regenerate the seed from the current time. -/
theorem c4_counterexample :
    (handle_input okOracle 7 resetMsg (connectInit 7)).toOption.map
        (fun r => r.1.session_seed) = some 0 ∧
    (resetSpec 7).session_seed = 7 ∧ (0 : Nat) ≠ 7 :=
  ⟨rfl, rfl, by decide⟩

/-- C4 (amended): reset has no preconditions and always succeeds: for
every prior state it sets spinning to all-true and all three result
slots to unset, but it sets sessionSeed to the constant 0; the
time-derived seed regeneration happens only when a new viewer connection
is established. -/
theorem c4_reset_unconditional (g : GenOracle) (tns : Nat) (s : SMState) :
    handle_input g tns resetMsg s =
      .ok ({ spinning := [true, true, true], result := [none, none, none], session_seed := 0 },
           [.resetOk], [], []) :=
  handle_input_reset g tns s

/-- C5 (counterexample): on a transient first-attempt failure the
image-generation step reports failure immediately — it is not retried —
whereas the spec's "same retry policy" loop would succeed on the second
attempt. -/
theorem c5_counterexample :
    generate_image transientImageApi "slot.png" = .error "RateLimitError" ∧
    retryLoopSpec (imageAttempt transientImageApi "slot.png") 1 3 = .ok "slot.png" :=
  ⟨rfl, rfl⟩

/-- C5 (amended): the text-generation step is retried up to 3 attempts
with deterministic exponential backoff min(2^attempt, 10) seconds and no
jitter (the sleeps are exactly 2 then 4); the image-generation step is
attempted exactly once — its result depends only on attempt 1, and a
first-attempt failure is reported immediately with no retry. -/
theorem c5_retry_policy (api : Nat → Except String (String × String))
    (imgApi : Nat → Except String ImageApiResult) (fname : String) :
    (∀ r, api 1 = .ok r → generate_prompt_and_name api 3 = (.ok r, [])) ∧
    (∀ e r, api 1 = .error e → api 2 = .ok r →
        generate_prompt_and_name api 3 = (.ok r, [2])) ∧
    (∀ e1 e2 r, api 1 = .error e1 → api 2 = .error e2 → api 3 = .ok r →
        generate_prompt_and_name api 3 = (.ok r, [2, 4])) ∧
    (∀ e1 e2 e3, api 1 = .error e1 → api 2 = .error e2 → api 3 = .error e3 →
        generate_prompt_and_name api 3
          = (.error ("Prompt generation failed: " ++ e3), [2, 4])) ∧
    (generate_image imgApi fname = imageAttempt imgApi fname 1) ∧
    (∀ e, imgApi 1 = .error e → generate_image imgApi fname = .error e) := by
  refine ⟨?_, ?_, ?_, ?_, rfl, ?_⟩
  · intro r h1
    simp [generate_prompt_and_name, genAttempts, h1]
  · intro e r h1 h2
    simp [generate_prompt_and_name, genAttempts, h1, h2]
  · intro e1 e2 r h1 h2 h3
    simp [generate_prompt_and_name, genAttempts, h1, h2, h3]
  · intro e1 e2 e3 h1 h2 h3
    simp [generate_prompt_and_name, genAttempts, h1, h2, h3]
  · intro e h1
    simp [generate_image, imageAttempt, h1]

/-- C5 witness. -/
theorem c5_retry_policy_witness :
    generate_prompt_and_name (fun n => if n ≤ 2 then .error "x" else .ok ("a", "b")) 3
      = (.ok ("a", "b"), [2, 4]) ∧
    generate_image transientImageApi "f.png" = .error "RateLimitError" :=
  ⟨(c5_retry_policy (fun n => if n ≤ 2 then .error "x" else .ok ("a", "b"))
      transientImageApi "f.png").2.2.1 "x" "x" ("a", "b") rfl rfl rfl,
   (c5_retry_policy (fun n => if n ≤ 2 then .error "x" else .ok ("a", "b"))
      transientImageApi "f.png").2.2.2.2.2 "RateLimitError" rfl⟩

/-- C6: over any list of stop events starting from an incomplete round,
the number of all_stopped broadcasts is exactly one when the run ends
with the round complete (in particular for three distinct stops followed
by redundant ones), and once the round is complete every further stop
event is a no-op: state unchanged, nothing broadcast, completion never
re-triggered. -/
theorem c6_all_stopped_exactly_once (g : GenOracle) (evs : List (Nat × Int × Option String))
    (s : SMState) (hlen : s.spinning.length = 3) (hstart : allStopped s = false) :
    countAllStopped (runStops g evs s).2 =
      (if allStopped (runStops g evs s).1 = true then 1 else 0) ∧
    (∀ evs2, allStopped (runStops g evs s).1 = true →
        runStops g evs2 (runStops g evs s).1 = ((runStops g evs s).1, [])) := by
  constructor
  · rw [runStops_count g evs s hlen, hstart]
    simp
  · intro evs2 hdone
    exact runStops_noop_of_allStopped g evs2 _ hdone

/-- C6 witness: three distinct stops then a redundant one produce
exactly one all_stopped broadcast, and a further redundant stop on the
completed round is a strict no-op. -/
theorem c6_all_stopped_exactly_once_witness :
    countAllStopped (runStops okOracle
        [(11, 0, none), (12, 1, none), (13, 2, none), (14, 0, none)] (connectInit 999)).2 = 1 ∧
    runStops okOracle [(15, 1, none)]
        (runStops okOracle
          [(11, 0, none), (12, 1, none), (13, 2, none), (14, 0, none)] (connectInit 999)).1
      = ((runStops okOracle
          [(11, 0, none), (12, 1, none), (13, 2, none), (14, 0, none)] (connectInit 999)).1,
         []) := by
  have h := c6_all_stopped_exactly_once okOracle
    [(11, 0, none), (12, 1, none), (13, 2, none), (14, 0, none)] (connectInit 999) rfl rfl
  have hfin : allStopped (runStops okOracle
      [(11, 0, none), (12, 1, none), (13, 2, none), (14, 0, none)] (connectInit 999)).1
      = true := by decide
  exact ⟨by rw [h.1, if_pos hfin], h.2 [(15, 1, none)] hfin⟩

/-- C7: the invariant "result[i] is set iff spinning[i] is false" (with
both arrays three slots long) holds in the initial state, holds after
the reinitialization done for every new viewer connection, and is
preserved by every successful `handle_input` step (stop and reset). -/
theorem c7_round_state_invariant :
    SMInv initState ∧ (∀ tms, SMInv (connectInit tms)) ∧
    (∀ g tns d s s1 out le gc, SMInv s →
        handle_input g tns d s = .ok (s1, out, le, gc) → SMInv s1) := by
  refine ⟨⟨rfl, rfl, ?_⟩, fun tms => ⟨rfl, rfl, ?_⟩, ?_⟩
  · intro i; fin_cases i <;> rfl
  · intro i; fin_cases i <;> rfl
  · intro g tns d s s1 out le gc hInv heq
    exact handle_input_SMInv g tns d s s1 out le gc hInv heq

/-- C7 witness: the invariant after stopping reel 0 from the initial
state at time 5 (which draws "Snake"). -/
theorem c7_round_state_invariant_witness :
    SMInv { spinning := [false, true, true], result := [some "Snake", none, none],
            session_seed := 0 } :=
  c7_round_state_invariant.2.2 okOracle 5 (stopMsg 0 none) initState _
    [.reelStopped 0 "Snake"] [] [] c7_round_state_invariant.1 rfl

/-- C8: stopping a spinning reel uses a supplied catalog-member symbol
verbatim and otherwise draws
catalog[i][(sessionSeed XOR i*7919 XOR (time_ns AND 0xFFFFFFFF)) mod |catalog[i]|];
afterwards the reel is no longer spinning and its result is a member of
the reel's catalog. -/
theorem c8_stop_symbol (g : GenOracle) (tns : Nat) (idx : Int) (symOpt : Option String)
    (s : SMState)
    (hsl : s.spinning.length = 3) (hrl : s.result.length = 3)
    (h0 : 0 ≤ idx) (h3 : idx < 3)
    (hsp : s.spinning.getD idx.toNat false = true) :
    chooseSymbol s idx.toNat tns symOpt =
      (match symOpt with
       | some x =>
         if x ∈ REELS idx.toNat then x
         else (REELS idx.toNat).getD
           ((s.session_seed ^^^ (idx.toNat * 7919) ^^^ (Nat.land tns 4294967295))
             % (REELS idx.toNat).length) ""
       | none => (REELS idx.toNat).getD
           ((s.session_seed ^^^ (idx.toNat * 7919) ^^^ (Nat.land tns 4294967295))
             % (REELS idx.toNat).length) "") ∧
    ((handle_input g tns (stopMsg idx symOpt) s).toOption.map
        (fun r => (r.1.spinning.getD idx.toNat true, r.1.result.getD idx.toNat none)))
      = some (false, some (chooseSymbol s idx.toNat tns symOpt)) ∧
    chooseSymbol s idx.toNat tns symOpt ∈ REELS idx.toNat := by
  have hidx : idx.toNat < 3 := by omega
  refine ⟨?_, ?_, chooseSymbol_mem s idx.toNat hidx tns symOpt⟩
  · cases symOpt <;> rfl
  · rw [handle_input_stop, if_pos ⟨h0, h3, hsp⟩]
    obtain ⟨sp, res, seed⟩ := s
    simp only at hsl hrl
    obtain ⟨a, b, c, rfl⟩ := List.length_eq_three.mp hsl
    obtain ⟨x, y, z, rfl⟩ := List.length_eq_three.mp hrl
    have hcases : idx.toNat = 0 ∨ idx.toNat = 1 ∨ idx.toNat = 2 := by omega
    rcases hcases with h | h | h <;> rw [h] <;> split <;> rfl

/-- C8 witness: stopping reel 0 from the initial state at time 5 with no
explicit symbol. -/
theorem c8_stop_symbol_witness :
    chooseSymbol initState 0 5 none =
      (REELS 0).getD
        ((initState.session_seed ^^^ (0 * 7919) ^^^ (Nat.land 5 4294967295))
          % (REELS 0).length) "" ∧
    ((handle_input okOracle 5 (stopMsg 0 none) initState).toOption.map
        (fun r => (r.1.spinning.getD 0 true, r.1.result.getD 0 none)))
      = some (false, some (chooseSymbol initState 0 5 none)) ∧
    chooseSymbol initState 0 5 none ∈ REELS 0 :=
  c8_stop_symbol okOracle 5 0 none initState rfl rfl (by decide) (by decide) (by decide)

/-- C9: a broadcast attempts delivery to every registered connection —
a failure on one connection never blocks delivery to the others — and a
failed connection is pruned from the registry, so it is absent from any
subsequent broadcast. -/
theorem c9_broadcast_resilience (sendOk : Nat → Bool) (clients : List Nat) (ws : Nat)
    (hmem : ws ∈ clients) :
    (sendOk ws = true → ws ∈ (broadcastRun sendOk clients).1) ∧
    (sendOk ws = false →
      ws ∉ (broadcastRun sendOk clients).2 ∧
      ∀ sendOk2 : Nat → Bool, ws ∉ (broadcastRun sendOk2 (broadcastRun sendOk clients).2).1) := by
  rw [broadcastRun_eq]
  constructor
  · intro hok
    exact List.mem_filter.mpr ⟨hmem, hok⟩
  · intro hfailed
    have hnreg : ws ∉ clients.filter
        (fun w2 => !((clients.filter fun w => !(sendOk w)).contains w2)) := by
      intro hc
      have hkeep := (List.mem_filter.mp hc).2
      simp [List.elem_eq_mem] at hkeep
      rcases hkeep with hnm | hok
      · exact hnm hmem
      · rw [hfailed] at hok
        exact Bool.false_ne_true hok
    refine ⟨hnreg, ?_⟩
    intro sendOk2 hc
    rw [broadcastRun_eq] at hc
    exact hnreg (List.mem_filter.mp hc).1

/-- C9 witness: connection 2 is dead among [1,2,3,4]; 1 still gets the
payload, 2 is pruned and absent from the next broadcast's deliveries. -/
theorem c9_broadcast_resilience_witness :
    (1 ∈ (broadcastRun (fun w => !(w == 2)) [1, 2, 3, 4]).1) ∧
    (2 ∉ (broadcastRun (fun w => !(w == 2)) [1, 2, 3, 4]).2) ∧
    (2 ∉ (broadcastRun (fun _ => true) (broadcastRun (fun w => !(w == 2)) [1, 2, 3, 4]).2).1) :=
  ⟨(c9_broadcast_resilience (fun w => !(w == 2)) [1, 2, 3, 4] 1 (by decide)).1 (by decide),
   ((c9_broadcast_resilience (fun w => !(w == 2)) [1, 2, 3, 4] 2 (by decide)).2 (by decide)).1,
   ((c9_broadcast_resilience (fun w => !(w == 2)) [1, 2, 3, 4] 2 (by decide)).2 (by decide)).2
     (fun _ => true)⟩

/-- C10: when the generation pipeline invocation for a completing stop
fails with any exception, an error notification is broadcast, no
manifest entry is appended, and the failure handling leaves the round
state exactly as the stop left it — spinning [false,false,false] and all
three result slots keeping their values — and any further stop events
leave that completed state untouched until a reset or a new connection
reinitializes it. -/
theorem c10_failure_frame (g : GenOracle) (tns : Nat) (idx : Int) (symOpt : Option String)
    (s : SMState) (em : String)
    (hsl : s.spinning.length = 3) (h0 : 0 ≤ idx) (h3 : idx < 3)
    (hsp : s.spinning.getD idx.toNat false = true)
    (hoth : ∀ j : Fin 3, j.val ≠ idx.toNat → s.spinning.getD j.val false = false)
    (hfail : (runPipeline g (s.result.set idx.toNat
        (some (chooseSymbol s idx.toNat tns symOpt)))).1 = .errorMsg em) :
    handle_input g tns (stopMsg idx symOpt) s =
      .ok (stoppedState s idx.toNat (chooseSymbol s idx.toNat tns symOpt),
           [.reelStopped idx.toNat (chooseSymbol s idx.toNat tns symOpt),
            .allStopped (s.result.set idx.toNat (some (chooseSymbol s idx.toNat tns symOpt))),
            .errorMsg em],
           [],
           (runPipeline g (s.result.set idx.toNat
               (some (chooseSymbol s idx.toNat tns symOpt)))).2.2) ∧
    (stoppedState s idx.toNat (chooseSymbol s idx.toNat tns symOpt)).spinning
      = [false, false, false] ∧
    (∀ g2 evs, runStops g2 evs (stoppedState s idx.toNat (chooseSymbol s idx.toNat tns symOpt))
        = (stoppedState s idx.toNat (chooseSymbol s idx.toNat tns symOpt), [])) := by
  have hsp3 : s.spinning.set idx.toNat false = [false, false, false] :=
    set_false_all s idx hsl h0 h3 hoth
  have hall : ((s.spinning.set idx.toNat false).all fun b => !b) = true := by
    rw [hsp3]; rfl
  refine ⟨?_, hsp3, ?_⟩
  · rw [handle_input_stop, if_pos ⟨h0, h3, hsp⟩, if_pos hall, hfail,
      runPipeline_entries_nil g _ em hfail]
  · intro g2 evs
    exact runStops_noop_of_allStopped g2 evs _ hall

/-- C10 witness: reel 2 completes the round [Cat, Apple, Sword] while
the text-generation step raises "boom". -/
theorem c10_failure_frame_witness :
    handle_input failOracle 0 (stopMsg 2 (some "Sword")) twoStopped =
      .ok (stoppedState twoStopped 2 (chooseSymbol twoStopped 2 0 (some "Sword")),
           [.reelStopped 2 (chooseSymbol twoStopped 2 0 (some "Sword")),
            .allStopped
              (twoStopped.result.set 2 (some (chooseSymbol twoStopped 2 0 (some "Sword")))),
            .errorMsg "boom"],
           [],
           (runPipeline failOracle
             (twoStopped.result.set 2 (some (chooseSymbol twoStopped 2 0 (some "Sword"))))).2.2) ∧
    (stoppedState twoStopped 2 (chooseSymbol twoStopped 2 0 (some "Sword"))).spinning
      = [false, false, false] ∧
    runStops okOracle [(7, 0, none)]
        (stoppedState twoStopped 2 (chooseSymbol twoStopped 2 0 (some "Sword")))
      = (stoppedState twoStopped 2 (chooseSymbol twoStopped 2 0 (some "Sword")), []) := by
  have h := c10_failure_frame failOracle 0 2 (some "Sword") twoStopped "boom"
    rfl (by decide) (by decide) (by decide) (by decide) (by decide)
  exact ⟨h.1, h.2.1, h.2.2 okOracle [(7, 0, none)]⟩

end SlotMachine
